import Mathlib

/-!
Verification of the plan-resolution and recursive-application algorithm of
`torch/distributed/tensor/parallel/api.py` (`parallelize_module`).

The module tree, the topology handle and the process-wide RNG tracker are
external collaborators of that file (they live outside `src/`); they are
modelled from the spec's interface contracts (spec sections 3 and 6).  The
algorithm itself — path splitting, the literal/wildcard walk, the fan-out
recursion, the tail registration and the error checks — is translated
line by line from `parallelize_module` (src lines 71–146).

In-place mutation is reflected functionally: `register_module` on a node
reached by descent becomes a functional update of the enclosing subtree,
and each recursive frame returns the updated subtree that replaces the
frame's parent node.  Transformations (`ParallelStyle._apply`) are
modelled as pure functions `Module → Topology → Module`, following the
spec's contract that a transformation "consumes a node and a topology
handle, produces a replacement node, with no additional required side
effects visible to this core".  Consequently a recursive call whose
return value the source discards (the direct-style branch of the
wildcard fan-out, line 110) contributes only its RNG-bootstrap effect.
-/

set_option maxHeartbeats 1000000

namespace TPApi

/-- A tree of named, nested components: the spec's Tree Node
("zero or more named children; insertion order is the visit order"). -/
inductive Module where
  | node (children : List (String × Module)) : Module

/-- Modelled from the spec: the tree capability
`children() → ordered sequence of (name, child)` (`nn.Module.children` is
outside `src/`; the source iterates child values in declared order). -/
def Module.children : Module → List (String × Module)
  | .node cs => cs

/-- Modelled from the spec: the tree capability
`get_child(name) → child | not-found` (`nn.Module.get_submodule` is outside
`src/`; the source's `AttributeError` on a missing child is the `none` case). -/
def Module.get_submodule : Module → String → Option Module
  | .node cs, name => (cs.find? (fun p => p.1 == name)).map (fun p => p.2)

/-- Modelled from the spec: the tree capability
`replace_child(name, new_child)` (`nn.Module.register_module` is outside
`src/`).  An existing name is replaced in place, keeping the declared order;
the spec leaves an absent name open, and the surrounding system's register
operation adds the child then, so an absent name is appended. -/
def Module.register_module : Module → String → Module → Module
  | .node cs, name, child =>
      if cs.any (fun p => p.1 == name) then
        .node (cs.map (fun p => if p.1 == name then (name, child) else p))
      else
        .node (cs ++ [(name, child)])

/-- Modelled from the spec: the topology capability
(`DeviceMesh` is outside `src/`): a dimensionality, an RNG-support flag and a
device kind (spec section 6). -/
structure Topology where
  ndim : Nat
  rngSupported : Bool
  deviceKind : String
deriving DecidableEq

/-- Modelled from the spec: the process-wide RNG tracker singleton
(`torch.distributed._tensor.random._rng_tracker`, outside `src/`): absent,
some other tracker kind, or the specialized tensor-parallel variant with its
device kind, its seeded state and its distribute-region flag. -/
inductive RNGTrackerState where
  | absent
  | otherTracker
  | tensorParallel (deviceKind : String) (seeded : Option (Topology × Nat))
      (distributeRegionEnabled : Bool)
deriving DecidableEq

/-- Whether the process-wide tracker is the specialized tensor-parallel
variant (the source's `isinstance(random._rng_tracker, TensorParallelRNGTracker)`). -/
def RNGTrackerState.isTensorParallel : RNGTrackerState → Bool
  | .tensorParallel _ _ _ => true
  | _ => false

/-- Source lines 76–85: if RNG coordination is supported for the mesh and the
process-wide tracker is not already the tensor-parallel variant, install a
fresh tracker for the mesh's device kind, seed it with base seed 1234 and
disable its distribute-region flag; otherwise leave the state alone.
(The tracker construction and seeding themselves are outside `src/` and
follow the spec's RNGCoordinatorBootstrap contract.) -/
def rngBootstrap (topo : Topology) (s : RNGTrackerState) : RNGTrackerState :=
  if topo.rngSupported && !s.isTensorParallel then
    .tensorParallel topo.deviceKind (some (topo, 1234)) false
  else s

/-- The errors `parallelize_module` can raise:
the `_validate_tp_mesh_dim` failure (spec's InvalidTopologyError), the
`ValueError` of source line 94 for an empty path (spec's InvalidPlanKeyError),
and the failure of the `assert` at source line 134. -/
inductive TPError where
  | invalidTopologyError
  | invalidPlanKeyError
  | assertionError
deriving DecidableEq

/-- A transformation (`ParallelStyle._apply`): consumes a node and the
topology, produces the replacement node (spec's Transformation contract;
the concrete styles are outside `src/`). -/
def ParallelStyle : Type := Module → Topology → Module

/-- The `parallelize_plan` argument: a single transformation or a mapping
from dotted-path pattern to transformation (in insertion order). -/
inductive Plan where
  | style (t : ParallelStyle)
  | dict (entries : List (String × ParallelStyle))

/-- Python's `str.split(sep)` for a single-character separator, on the
character list: splitting never yields an empty list, the empty string
splits to `[""]`, and adjacent separators yield empty tokens. -/
def splitChars (sep : Char) : List Char → List (List Char)
  | [] => [[]]
  | c :: cs =>
      match splitChars sep cs with
      | [] => [[c]]
      | h :: t => if c = sep then [] :: h :: t else (c :: h) :: t

/-- `module_path.split(".")` of source line 92 (Python `str.split`). -/
def splitDot (s : String) : List String :=
  (splitChars '.' s.data).map (fun l => String.mk l)

/-- `".".join(path_splits)` of source line 102 (Python `str.join`). -/
def joinDot : List String → String
  | [] => ""
  | [x] => x
  | x :: y :: t => x ++ "." ++ joinDot (y :: t)

/-- The leaf module of a walk frame: `leaf_module` is the parent itself until
the first literal segment descends (source line 91 initializes
`parent_module = leaf_module = module`), and afterwards it is the parent's
child under the last literal name.  The `getD` default is unreachable: a
literal name is stored only after the lookup succeeded, and later updates
preserve child names. -/
def leafOf (p : Module) (lname : Option String) : Module :=
  match lname with
  | none => p
  | some n => (p.get_submodule n).getD p

/-- The per-child fan-out of source lines 104–110: apply `step` to every
child of the current parent in declared order, threading the RNG state and
stopping at the first error.  The child list keeps its names; each child is
replaced by the result of its (in-place mutating) recursive call. -/
def fanOutWith (step : Module → RNGTrackerState → Except TPError Module × RNGTrackerState) :
    List (String × Module) → RNGTrackerState →
      Except TPError (List (String × Module)) × RNGTrackerState
  | [], s => (.ok [], s)
  | (n, c) :: cs, s =>
      match step c s with
      | (.ok c', s') =>
          match fanOutWith step cs s' with
          | (.ok cs', s'') => (.ok ((n, c') :: cs'), s'')
          | (.error e, s'') => (.error e, s'')
      | (.error e, s') => (.error e, s')

/-- One per-child call of the wildcard fan-out (source lines 105–110): the
source re-enters `parallelize_module` on the child, so the call first
re-validates the mesh and re-bootstraps the RNG tracker.  With a non-empty
`leaf_path` the child is processed by `recur` (the walk of the single-key
plan `{leaf_path: style}`); with an empty `leaf_path` the source applies the
style directly and *discards* the returned module (line 110), so only the
RNG bootstrap remains visible. -/
def wildcardStep (topo : Topology) (leaf_path : String)
    (recur : Module → RNGTrackerState → Except TPError Module × RNGTrackerState)
    (c : Module) (s0 : RNGTrackerState) : Except TPError Module × RNGTrackerState :=
  if topo.ndim ≠ 1 then (.error .invalidTopologyError, s0)
  else if leaf_path = "" then (.ok c, rngBootstrap topo s0)
  else recur c (rngBootstrap topo s0)

/-- The `while path_splits:` loop of source lines 98–140 for one plan entry,
followed by the tail registration of lines 128–140, as a function of the
remaining segments.  The frame state is the current parent subtree `p`, the
name `lname` of `leaf_module` inside `p` (`none` while `leaf_module` is still
the parent itself), and `atom`, the most recently popped segment.

* `splits = []`: the loop is over with `leaf_module ≠ None`.  Source line 134
  asserts `len(atom) > 0`; then line 135 registers, under the name `atom` on
  the current parent, the result of `parallelize_module(leaf_module,
  device_mesh, parallelize_style)` — that recursive call re-validates the
  mesh, re-bootstraps the RNG tracker and returns the style applied to the
  leaf.
* a literal segment: `parent_module = leaf_module` and
  `leaf_module = leaf_module.get_submodule(atom)` (lines 113–115).  A missing
  child is the benign no-match of lines 116–122: the entry ends with the
  subtree unchanged.  (The `except Exception` rewrap of lines 123–126 is
  unreachable in this model: the modelled lookup can only succeed or report
  not-found.)  When `leaf_module` was the parent itself the frame continues
  in place; otherwise the walk descends into the child and the returned
  updated child replaces it in `p` — the functional image of Python's
  in-place mutation.
* the wildcard segment: lines 100–110.  `leaf_path` joins the *remaining*
  segments (which the loop does not consume — they are processed again after
  the fan-out).  Every child of `parent_module` is visited in declared order:
  with a non-empty `leaf_path` the whole entry point recurses with the
  single-key plan `{leaf_path: style}` (its own mesh validation, RNG
  bootstrap and walk; `splitDot leaf_path` equals the remaining segments,
  which are dot-free tokens, so the recursion walks `rest`); with an empty
  `leaf_path` the source calls `parallelize_module(submodule, device_mesh,
  parallelize_style)` and discards the returned module, so only the mesh
  check and the RNG bootstrap remain visible.  Afterwards the loop continues
  with the remaining segments, `atom` now being `"*"`. -/
def walk (topo : Topology) (style : ParallelStyle) (splits : List String)
    (p : Module) (lname : Option String) (atom : String) (s : RNGTrackerState) :
    Except TPError Module × RNGTrackerState :=
  match splits with
  | [] =>
      if atom = "" then (.error .assertionError, s)
      else if topo.ndim ≠ 1 then (.error .invalidTopologyError, s)
      else
        (.ok (p.register_module atom (style (leafOf p lname) topo)),
          rngBootstrap topo s)
  | a :: rest =>
      if a = "*" then
        match fanOutWith
            (wildcardStep topo (joinDot rest)
              (fun c s0 => walk topo style rest c none "" s0)) p.children s with
        | (.ok cs', s') => walk topo style rest (.node cs') lname "*" s'
        | (.error e, s') => (.error e, s')
      else
        match (leafOf p lname).get_submodule a with
        | none => (.ok p, s)
        | some _ =>
            match lname with
            | none => walk topo style rest p (some a) a s
            | some n =>
                match walk topo style rest (leafOf p lname) (some a) a s with
                | (.ok leaf', s') => (.ok (p.register_module n leaf'), s')
                | (.error e, s') => (.error e, s')
termination_by splits.length

/-- The `for module_path, parallelize_style in parallelize_plan.items():`
loop of source lines 90–140: split each key on dots, raise the (dead, see
`splitDot`) empty-split `ValueError` of line 94, and run the walk from
`parent_module = leaf_module = module` with `atom = ""`. -/
def applyEntries (topo : Topology) :
    List (String × ParallelStyle) → Module → RNGTrackerState →
      Except TPError Module × RNGTrackerState
  | [], m, s => (.ok m, s)
  | (module_path, style) :: rest, m, s =>
      let path_splits := splitDot module_path
      if path_splits.length = 0 then (.error .invalidPlanKeyError, s)
      else
        match walk topo style path_splits m none "" s with
        | (.ok m', s') => applyEntries topo rest m' s'
        | (.error e, s') => (.error e, s')

/-- `parallelize_module` (source lines 25–146): validate that the mesh is
1-dimensional (`_validate_tp_mesh_dim`, modelled from the spec's
TopologyGuard since it is outside `src/`), bootstrap the RNG tracker, then
either apply a single style directly to the module or process the dict plan
entry by entry.  The returned pair carries the result (or error) and the
final process-wide RNG tracker state.  (`_log_api_usage_once` at line 71 is
telemetry with no effect on this core.) -/
def parallelize_module (module : Module) (device_mesh : Topology)
    (parallelize_plan : Plan) (s : RNGTrackerState) :
    Except TPError Module × RNGTrackerState :=
  if device_mesh.ndim ≠ 1 then (.error .invalidTopologyError, s)
  else
    let s1 := rngBootstrap device_mesh s
    match parallelize_plan with
    | .style t => (.ok (t module device_mesh), s1)
    | .dict entries => applyEntries device_mesh entries module s1

end TPApi


namespace TPApi

@[simp]
theorem isTensorParallel_absent : RNGTrackerState.absent.isTensorParallel = false := rfl

@[simp]
theorem isTensorParallel_otherTracker : RNGTrackerState.otherTracker.isTensorParallel = false := rfl

@[simp]
theorem isTensorParallel_tensorParallel (d : String) (sd : Option (Topology × Nat)) (f : Bool) :
    (RNGTrackerState.tensorParallel d sd f).isTensorParallel = true := rfl

/-- Bootstrapping twice is the same as bootstrapping once. -/
theorem rngBootstrap_idem (topo : Topology) (s : RNGTrackerState) :
    rngBootstrap topo (rngBootstrap topo s) = rngBootstrap topo s := by
  cases s <;> by_cases h1 : topo.rngSupported = true <;> simp [rngBootstrap, h1]

/-- A tensor-parallel tracker is never replaced by the bootstrap. -/
theorem rngBootstrap_of_isTensorParallel (topo : Topology) {s : RNGTrackerState}
    (h : s.isTensorParallel = true) : rngBootstrap topo s = s := by
  simp [rngBootstrap, h]

/-- C7: a single-transformation plan returns exactly the transformation
applied to the root with the topology. -/
theorem C7_thm (m : Module) (topo : Topology) (t : ParallelStyle)
    (s : RNGTrackerState) (h : topo.ndim = 1) :
    parallelize_module m topo (.style t) s = (.ok (t m topo), rngBootstrap topo s) := by
  simp [parallelize_module, h]

theorem C7_witness :
    parallelize_module (.node []) ⟨1, false, "cpu"⟩
        (.style (fun m _ => .node [("T", m)])) .absent
      = (.ok ((fun (m : Module) (_ : Topology) => Module.node [("T", m)]) (.node []) ⟨1, false, "cpu"⟩),
         rngBootstrap ⟨1, false, "cpu"⟩ .absent) :=
  C7_thm (.node []) ⟨1, false, "cpu"⟩ (fun m _ => .node [("T", m)]) .absent rfl

/-- C9: a non-1-D topology is rejected up front. -/
theorem C9_thm (m : Module) (topo : Topology) (plan : Plan) (s : RNGTrackerState)
    (h : topo.ndim ≠ 1) :
    parallelize_module m topo plan s = (.error .invalidTopologyError, s) := by
  simp [parallelize_module, h]

theorem C9_witness :
    parallelize_module (.node []) ⟨2, true, "cuda"⟩ (.dict []) .absent
      = (.error .invalidTopologyError, .absent) :=
  C9_thm (.node []) ⟨2, true, "cuda"⟩ (.dict []) .absent (by decide)

/-- C10: the empty dict plan returns the root unchanged. -/
theorem C10_thm (m : Module) (topo : Topology) (s : RNGTrackerState)
    (h : topo.ndim = 1) :
    parallelize_module m topo (.dict []) s = (.ok m, rngBootstrap topo s) := by
  simp [parallelize_module, h, applyEntries]

theorem C10_witness :
    parallelize_module (.node [("a", .node [])]) ⟨1, true, "cuda"⟩ (.dict []) .absent
      = (.ok (.node [("a", .node [])]), rngBootstrap ⟨1, true, "cuda"⟩ .absent) :=
  C10_thm (.node [("a", .node [])]) ⟨1, true, "cuda"⟩ .absent rfl

/-- C3: literal exact match. -/
theorem C3_thm (X : Module) (t : ParallelStyle) (topo : Topology)
    (s : RNGTrackerState) (h : topo.ndim = 1) :
    parallelize_module (.node [("a", .node [("b", .node [("c", X)])])]) topo
        (.dict [("a.b.c", t)]) s
      = (.ok (.node [("a", .node [("b", .node [("c", t X topo)])])]),
         rngBootstrap topo s) := by
  have hs : splitDot "a.b.c" = ["a", "b", "c"] := by decide
  simp [parallelize_module, h, applyEntries, hs, walk, leafOf, Module.get_submodule,
        Module.register_module, rngBootstrap_idem]

theorem C3_witness :
    parallelize_module (.node [("a", .node [("b", .node [("c", .node [])])])])
        ⟨1, false, "cpu"⟩ (.dict [("a.b.c", fun m _ => .node [("T", m)])]) .absent
      = (.ok (.node [("a", .node [("b", .node [("c",
            (fun (m : Module) (_ : Topology) => Module.node [("T", m)]) (.node []) ⟨1, false, "cpu"⟩)])])]),
         rngBootstrap ⟨1, false, "cpu"⟩ .absent) :=
  C3_thm (.node []) (fun m _ => .node [("T", m)]) ⟨1, false, "cpu"⟩ .absent rfl

/-- C5: missing literal segment is a silent no-match. -/
theorem C5_thm (X : Module) (t : ParallelStyle) (topo : Topology)
    (s : RNGTrackerState) (h : topo.ndim = 1) (hX : X.get_submodule "c" = none) :
    parallelize_module (.node [("a", .node [("b", X)])]) topo (.dict [("a.b.c", t)]) s
      = (.ok (.node [("a", .node [("b", X)])]), rngBootstrap topo s) := by
  have hs : splitDot "a.b.c" = ["a", "b", "c"] := by decide
  have h1 : (Module.node [("a", .node [("b", X)])]).get_submodule "a" = some (.node [("b", X)]) := rfl
  have h2 : (Module.node [("b", X)]).get_submodule "b" = some X := rfl
  simp [parallelize_module, h, applyEntries, hs, walk, leafOf, h1, h2, hX,
        Module.register_module]

theorem C5_witness :
    parallelize_module (.node [("a", .node [("b", .node [("u", .node [])])])])
        ⟨1, false, "cpu"⟩ (.dict [("a.b.c", fun m _ => .node [("T", m)])]) .absent
      = (.ok (.node [("a", .node [("b", .node [("u", .node [])])])]),
         rngBootstrap ⟨1, false, "cpu"⟩ .absent) :=
  C5_thm (.node [("u", .node [])]) (fun m _ => .node [("T", m)]) ⟨1, false, "cpu"⟩ .absent rfl rfl

/-- A concrete transformation that wraps its argument under a child named
"T"; used to evaluate the algorithm at concrete inputs. -/
def wrapStyle : ParallelStyle := fun m _ => .node [("T", m)]

/-- C1 fails on the code: for tree `root{a{k1: X1, k2: X2}}` and plan
`{"a.*": T}`, the wildcard fan-out iterates `parent_module.children()` —
the children of `root`, not of `a` — with an empty `leaf_path`, so the
fan-out only discards `T(a)`; the loop then falls through to the tail
registration of lines 135–140, which adds a child literally named `"*"`
holding `T(a)` to `root`.  Neither `k1` nor `k2` is touched. -/
theorem C1_code_eval :
    parallelize_module
        (.node [("a", .node [("k1", .node []), ("k2", .node [("u", .node [])])])])
        ⟨1, false, "cpu"⟩ (.dict [("a.*", wrapStyle)]) .absent
      = (.ok (.node [("a", .node [("k1", .node []), ("k2", .node [("u", .node [])])]),
              ("*", .node [("T", .node [("k1", .node []), ("k2", .node [("u", .node [])])])])]),
         .absent)
    ∧ (Module.node [("a", .node [("k1", .node []), ("k2", .node [("u", .node [])])]),
              ("*", .node [("T", .node [("k1", .node []), ("k2", .node [("u", .node [])])])])])
      ≠ .node [("a", .node [("k1", .node [("T", .node [])]),
                            ("k2", .node [("T", .node [("u", .node [])])])])] := by
  constructor
  · have hs : splitDot "a.*" = ["a", "*"] := by decide
    simp [parallelize_module, applyEntries, hs, walk, fanOutWith, wildcardStep, leafOf, joinDot,
          Module.get_submodule, Module.register_module, Module.children, wrapStyle, rngBootstrap]
  · simp

/-- C2 fails on the code: for tree `root{p{m{lin: X}, n{}}}` and plan
`{"p.*.lin": T}`, the fan-out applies `{"lin": T}` to the children of
`root` (only `p`, which has no `lin` child), and the continuing literal
walk then looks for `lin` directly under `p` and no-matches; `p.m.lin` is
never visited and the tree is returned unchanged. -/
theorem C2_code_eval :
    parallelize_module
        (.node [("p", .node [("m", .node [("lin", .node [])]), ("n", .node [])])])
        ⟨1, false, "cpu"⟩ (.dict [("p.*.lin", wrapStyle)]) .absent
      = (.ok (.node [("p", .node [("m", .node [("lin", .node [])]), ("n", .node [])])]),
         .absent)
    ∧ (Module.node [("p", .node [("m", .node [("lin", .node [])]), ("n", .node [])])])
      ≠ .node [("p", .node [("m", .node [("lin", .node [("T", .node [])])]), ("n", .node [])])] := by
  constructor
  · have hs : splitDot "p.*.lin" = ["p", "*", "lin"] := by decide
    have hl : splitDot "lin" = ["lin"] := by decide
    simp [parallelize_module, applyEntries, hs, hl, walk, fanOutWith, wildcardStep, leafOf, joinDot,
          Module.get_submodule, Module.register_module, Module.children, wrapStyle, rngBootstrap]
  · simp

/-- C4 fails on the code: the guard of source line 93 compares against an
empty list, but `"".split(".")` is `[""]`, so the `ValueError` of line 94
can never fire; the single empty segment then no-matches (no child is
named `""`) and the entry is silently skipped — no error, no mutation. -/
theorem C4_code_eval :
    parallelize_module (.node [("a", .node [])]) ⟨1, false, "cpu"⟩
        (.dict [("", wrapStyle)]) .absent
      = (.ok (.node [("a", .node [])]), .absent) := by
  have hs : splitDot "" = [""] := by decide
  simp [parallelize_module, applyEntries, hs, walk, leafOf, Module.get_submodule, rngBootstrap]

/-- C6 fails on the code: for plan `{"a.*": T}` the fan-out (which here
only discards per-child results) is followed by the tail registration of
lines 135–140 — a further registration for the same entry, under which the
parent gains a new child named `"*"`. -/
theorem C6_code_eval :
    parallelize_module (.node [("a", .node [("k", .node [])])])
        ⟨1, false, "cpu"⟩ (.dict [("a.*", wrapStyle)]) .absent
      = (.ok (.node [("a", .node [("k", .node [])]),
              ("*", .node [("T", .node [("k", .node [])])])]),
         .absent)
    ∧ ((Module.node [("a", .node [("k", .node [])]),
              ("*", .node [("T", .node [("k", .node [])])])]).children.map Prod.fst
        ≠ (Module.node [("a", .node [("k", .node [])])]).children.map Prod.fst) := by
  constructor
  · have hs : splitDot "a.*" = ["a", "*"] := by decide
    simp [parallelize_module, applyEntries, hs, walk, fanOutWith, wildcardStep, leafOf, joinDot,
          Module.get_submodule, Module.register_module, Module.children, wrapStyle, rngBootstrap]
  · simp [Module.children]

/-- If every per-child step leaves a tensor-parallel tracker state
unchanged, so does the whole fan-out. -/
theorem fanOutWith_snd
    (step : Module → RNGTrackerState → Except TPError Module × RNGTrackerState)
    (hstep : ∀ c s0, s0.isTensorParallel = true → (step c s0).2 = s0) :
    ∀ (cs : List (String × Module)) (s : RNGTrackerState),
      s.isTensorParallel = true → (fanOutWith step cs s).2 = s := by
  intro cs
  induction cs with
  | nil => intro s hs; rfl
  | cons hd tl ih =>
      intro s hs
      obtain ⟨n, c⟩ := hd
      cases hcs : step c s with
      | mk r s' =>
          have h2 : s' = s := by
            have h3 := hstep c s hs
            rw [hcs] at h3
            exact h3
          rw [h2] at hcs
          cases r with
          | ok c' =>
              cases hts : fanOutWith step tl s with
              | mk rt st =>
                  have h4 : st = s := by
                    have h5 := ih s hs
                    rw [hts] at h5
                    exact h5
                  rw [h4] at hts
                  cases rt <;> simp [fanOutWith, hcs, hts]
          | error e => simp [fanOutWith, hcs]

/-- The walk never changes a tensor-parallel tracker state: every RNG
bootstrap it performs (directly or through its recursive re-entries) is the
idempotent no-op case of the bootstrap. -/
theorem walk_snd (topo : Topology) (style : ParallelStyle) :
    ∀ (n : Nat) (splits : List String), splits.length ≤ n →
    ∀ (p : Module) (lname : Option String) (atom : String) (s : RNGTrackerState),
      s.isTensorParallel = true → (walk topo style splits p lname atom s).2 = s := by
  intro n
  induction n with
  | zero =>
      intro splits hlen p lname atom s hs
      have h0 : splits = [] := List.length_eq_zero.mp (Nat.le_zero.mp hlen)
      subst h0
      rw [walk.eq_1]
      split_ifs <;> simp [rngBootstrap_of_isTensorParallel _ hs]
  | succ k ih =>
      intro splits hlen p lname atom s hs
      cases splits with
      | nil =>
          rw [walk.eq_1]
          split_ifs <;> simp [rngBootstrap_of_isTensorParallel _ hs]
      | cons a rest =>
          have hrest : rest.length ≤ k := Nat.le_of_succ_le_succ (by simpa using hlen)
          have hstep : ∀ c s0, s0.isTensorParallel = true →
              (wildcardStep topo (joinDot rest)
                (fun c s0 => walk topo style rest c none "" s0) c s0).2 = s0 := by
            intro c s0 h0
            unfold wildcardStep
            split_ifs with h1 h2
            · rfl
            · simp [rngBootstrap_of_isTensorParallel _ h0]
            · rw [rngBootstrap_of_isTensorParallel _ h0]
              exact ih rest hrest c none "" s0 h0
          cases lname with
          | none =>
              rw [walk.eq_2]
              by_cases ha : a = "*"
              · rw [if_pos ha]
                split
                next cs' s' heq =>
                    have hs' := fanOutWith_snd _ hstep p.children s hs
                    rw [heq] at hs'
                    have hs2 : s' = s := hs'
                    rw [hs2]
                    exact ih rest hrest (.node cs') none "*" s hs
                next e s' heq =>
                    have hs' := fanOutWith_snd _ hstep p.children s hs
                    rw [heq] at hs'
                    exact hs'
              · rw [if_neg ha]
                split
                · rfl
                · exact ih rest hrest p (some a) a s hs
          | some nm =>
              rw [walk.eq_3]
              by_cases ha : a = "*"
              · rw [if_pos ha]
                split
                next cs' s' heq =>
                    have hs' := fanOutWith_snd _ hstep p.children s hs
                    rw [heq] at hs'
                    have hs2 : s' = s := hs'
                    rw [hs2]
                    exact ih rest hrest (.node cs') (some nm) "*" s hs
                next e s' heq =>
                    have hs' := fanOutWith_snd _ hstep p.children s hs
                    rw [heq] at hs'
                    exact hs'
              · rw [if_neg ha]
                split
                · rfl
                · split
                  next leaf' s' heq =>
                      have hs' := ih rest hrest (leafOf p (some nm)) (some a) a s hs
                      rw [heq] at hs'
                      exact hs'
                  next e s' heq =>
                      have hs' := ih rest hrest (leafOf p (some nm)) (some a) a s hs
                      rw [heq] at hs'
                      exact hs'

/-- Processing dict entries never changes a tensor-parallel tracker state. -/
theorem applyEntries_snd (topo : Topology) :
    ∀ (entries : List (String × ParallelStyle)) (m : Module) (s : RNGTrackerState),
      s.isTensorParallel = true → (applyEntries topo entries m s).2 = s := by
  intro entries
  induction entries with
  | nil => intro m s hs; rfl
  | cons hd tl ih =>
      intro m s hs
      obtain ⟨path, style⟩ := hd
      simp only [applyEntries]
      split_ifs with h1
      · rfl
      · split
        next m' s' heq =>
            have hs2 : s' = s := by
              have h3 := walk_snd topo style (splitDot path).length (splitDot path) le_rfl
                m none "" s hs
              rw [heq] at h3
              exact h3
            rw [hs2]
            exact ih m' s hs
        next e s' heq =>
            have h3 := walk_snd topo style (splitDot path).length (splitDot path) le_rfl
              m none "" s hs
            rw [heq] at h3
            exact h3

/-- C8: when RNG coordination is supported and the process-wide tracker is
already the tensor-parallel variant, `parallelize_module` performs no RNG
side effect: the tracker state (variant, seeded state, flag) is unchanged. -/
theorem C8_thm (m : Module) (topo : Topology) (plan : Plan) (s : RNGTrackerState)
    (_hsup : topo.rngSupported = true) (hs : s.isTensorParallel = true) :
    (parallelize_module m topo plan s).2 = s := by
  unfold parallelize_module
  split_ifs with h
  · rfl
  · cases plan with
    | style t => simp [rngBootstrap_of_isTensorParallel _ hs]
    | dict entries =>
        simp only [rngBootstrap_of_isTensorParallel _ hs]
        exact applyEntries_snd topo entries m s hs

theorem C8_witness :
    (parallelize_module (.node [("a", .node [])]) ⟨1, true, "cuda"⟩
        (.dict [("a", wrapStyle)])
        (.tensorParallel "cuda" (some (⟨1, true, "cuda"⟩, 1234)) false)).2
      = .tensorParallel "cuda" (some (⟨1, true, "cuda"⟩, 1234)) false :=
  C8_thm (.node [("a", .node [])]) ⟨1, true, "cuda"⟩ (.dict [("a", wrapStyle)])
    (.tensorParallel "cuda" (some (⟨1, true, "cuda"⟩, 1234)) false) rfl rfl

end TPApi
